import Mathlib

/- Shallow embedding of the installation-orchestration core of the gnushark
repository (src/gnushark.py) together with theorems settling the claims
C1 to C10 about it.  External probes (the pacman database, GPU detection,
the flatpak runtime, the filesystem, wall-clock time) are modelled as
explicit oracle parameters; every pure computation is translated line by
line from the Python source, with the source location noted on each
definition.  Definitions whose name carries a `spec` marker restate the
words of the specification or of a claim and exist only to be compared
with the definitions taken from the source. -/

namespace GnuShark

/-- Size branch of `App._choose_zram_params`, src/gnushark.py lines 1812-1821,
before rounding.  The Python expression `int(ram_mib * 0.75)` is embedded as
`ram * 3 / 4`: it is only evaluated when `4096 < ram ≤ 8192`, where
`ram * 0.75` is exact in double precision (`ram * 3 ≤ 24576 < 2 ^ 53`) and
`int` truncation of a nonnegative value equals natural division. -/
def zram_size_mib_pre (ram : Nat) : Nat :=
  if ram ≤ 4096 then ram
  else if ram ≤ 8192 then ram * 3 / 4
  else if ram ≤ 16384 then ram / 2
  else if ram ≤ 65536 then 8192
  else 16384

/-- Rounding step of `App._choose_zram_params`, src/gnushark.py line 1822:
`size_mib = max(256, (size_mib // 256) * 256)`. -/
def zram_size_mib (ram : Nat) : Nat :=
  max 256 (zram_size_mib_pre ram / 256 * 256)

/-- Label rendering of `App._choose_zram_params`, src/gnushark.py line 1823:
`f"{size_mib // 1024}G" if size_mib % 1024 == 0 else f"{size_mib}M"`. -/
def zram_size_label (m : Nat) : String :=
  if m % 1024 == 0 then toString (m / 1024) ++ "G" else toString m ++ "M"

/-- Compression choice of `App._choose_zram_params`, src/gnushark.py
line 1824. -/
def zram_comp (cores : Nat) : String :=
  if cores ≤ 2 then "lzo-rle" else if cores ≤ 8 then "lz4" else "zstd"

/-- Swappiness choice of `App._choose_zram_params`, src/gnushark.py
line 1825. -/
def zram_swappiness (ram : Nat) : Nat :=
  if ram ≤ 8192 then 100 else if ram ≤ 16384 then 80 else 60

/-- Pure core of `App._choose_zram_params`, src/gnushark.py lines 1808-1826,
as a function of the detected total RAM (MiB) and core count.  In the source
the two inputs are read by `_detect_total_ram_mib` and `_detect_cpu_count`
and everything after that is the pure computation embedded here. -/
def choose_zram_params (ram cores : Nat) : String × String × Nat :=
  (zram_size_label (zram_size_mib ram), zram_comp cores, zram_swappiness ram)

/-- Value of one decimal digit character, used by the label parser below;
48 is the code point of the zero digit. -/
def digit_val (c : Char) : Option Nat :=
  if '0' ≤ c ∧ c ≤ '9' then some (c.toNat - 48) else none

/-- Accumulating decimal reader for the label parser below. -/
def parse_decimal_go (acc : Nat) : List Char → Option Nat
  | [] => some acc
  | c :: rest =>
    match digit_val c with
    | some d => parse_decimal_go (acc * 10 + d) rest
    | none => none

/-- Decimal reader for the label parser below; empty input is rejected. -/
def parse_decimal : List Char → Option Nat
  | [] => none
  | cs => parse_decimal_go 0 cs

/-- Modelled from the spec for claim C2: a parser giving the meaning of a size
label, in MiB.  `<N>G` denotes `N * 1024` MiB and `<N>M` denotes `N` MiB; the
byte count the claim speaks about is the returned MiB value times `2 ^ 20`. -/
def parse_size_label (s : String) : Option Nat :=
  match s.data.getLast? with
  | some 'G' => (parse_decimal s.data.dropLast).map (fun n => n * 1024)
  | some 'M' => parse_decimal s.data.dropLast
  | _ => none

/-- Size formula in the words of claim C1: the branch table with the integer
part of `0.75 * ramMiB` written as `75 * ram / 100`, then rounded down to the
nearest multiple of 256 with a floor of 256. -/
def zram_spec_size (ram : Nat) : Nat :=
  max 256
    ((if ram ≤ 4096 then ram
      else if ram ≤ 8192 then 75 * ram / 100
      else if ram ≤ 16384 then ram / 2
      else if ram ≤ 65536 then 8192
      else 16384) / 256 * 256)

/-- Compression formula in the words of claim C1. -/
def zram_spec_comp (cores : Nat) : String :=
  if cores ≤ 2 then "lzo-rle" else if cores ≤ 8 then "lz4" else "zstd"

/-- Swappiness formula in the words of claim C1. -/
def zram_spec_swappiness (ram : Nat) : Nat :=
  if ram ≤ 8192 then 100 else if ram ≤ 16384 then 80 else 60

/-- Split of `App._split_official_aur`, src/gnushark.py lines 1287-1294.  The
oracle `inOfficial` models membership in the official-repository set computed
by `_which_in_official_repos` (a batch `pacman -Si` query with a memoized
per-package fallback); the loop appends each name to the official list when
the oracle holds and to the AUR list otherwise, preserving input order. -/
def split_official_aur (inOfficial : String → Bool) : List String → List String × List String
  | [] => ([], [])
  | p :: rest =>
    if inOfficial p then
      (p :: (split_official_aur inOfficial rest).1, (split_official_aur inOfficial rest).2)
    else
      ((split_official_aur inOfficial rest).1, p :: (split_official_aur inOfficial rest).2)

/-- Branch selected by the source-selection block of `App.handle_action`,
src/gnushark.py lines 2015-2064. -/
inductive SourceBranch
  | officialRepo
  | flatpakApp
  | aurOnly
deriving DecidableEq, Repr

/-- Source selection of `App.handle_action`, src/gnushark.py lines 2015-2064:
`official, aur = self._split_official_aur(to_install)` followed by
`if official: ... elif flatpak_id and self._flatpak_available(): ... else:
...`.  Each branch body ends the flow inside its own branch (launching a
pipeline or aborting with an error); no body transfers control to another
branch, so the branch taken is decided entirely by this conditional.  A
configured, non-empty flatpak identifier is modelled as `some id`. -/
def select_install_source (inOfficial : String → Bool) (toInstall : List String)
    (flatpakId : Option String) (flatpakAvailable : Bool) : SourceBranch :=
  if !(split_official_aur inOfficial toInstall).1.isEmpty then SourceBranch.officialRepo
  else if flatpakId.isSome && flatpakAvailable then SourceBranch.flatpakApp
  else SourceBranch.aurOnly

/-- Hardware gate `App._block_incompatible`, src/gnushark.py lines 1736-1760.
`gpuVendors` models `self.gpu_vendors or detect_gpu_vendors()` (the cached
lspci/sysfs probe of lines 679-684) and `moduleVendors` models
`self._kernel_module_vendors()`; line 1739 unions the two.  The CPU vendor
read on line 1740 only selects the wording of the intel error message and
never changes whether an item is blocked, so it is not a parameter here.
Returns true when the action must be blocked. -/
def block_incompatible (itemId : String) (gpuVendors moduleVendors : List String) : Bool :=
  if itemId = "nvidia-driver" ∧ "nvidia" ∉ gpuVendors ++ moduleVendors then true
  else if itemId = "intel-mesa" ∧ "intel" ∉ gpuVendors ++ moduleVendors then true
  else if itemId = "amd-mesa" ∧ "amd" ∉ gpuVendors ++ moduleVendors then true
  else false

/-- Outcome of the compatibility gate at the top of `App.handle_action`. -/
inductive ActionGate
  | blocked
  | proceeds
deriving DecidableEq, Repr

/-- First step of `App.handle_action`, src/gnushark.py lines 1878-1879: when
`_block_incompatible` reports an incompatibility the handler returns at once,
before any package query, install plan or script construction. -/
def handle_action_gate (itemId : String) (gpuVendors moduleVendors : List String) : ActionGate :=
  if block_incompatible itemId gpuVendors moduleVendors then ActionGate.blocked
  else ActionGate.proceeds

/-- Sentinel path built by `App._open_terminal_and_run_pipeline`,
src/gnushark.py line 1422: `f"/tmp/gnusk_done_{os.getpid()}_{int(time.time()*1000)}"`.
A pure function of the process id and the epoch-millisecond timestamp only. -/
def sentinel_path (pid epochMs : Nat) : String :=
  "/tmp/gnusk_done_" ++ toString pid ++ "_" ++ toString epochMs

/-- On-disk state of the two polkit policy artifacts handled by
`App._ensure_polkit_policy`: the runroot wrapper file (content plus
executable bit) and the policy descriptor file. -/
structure PolicyFs where
  wrapper : Option String
  wrapperExec : Bool
  policy : Option String
deriving DecidableEq, Repr

/-- Byte-for-byte check command of `App._ensure_polkit_policy`,
src/gnushark.py lines 1354-1364: `[ -f policy ] && [ -x wrapper ] &&
cmp -s wrapper intended && cmp -s policy intended`. -/
def policy_check_ok (fs : PolicyFs) (wrapperContent policyContent : String) : Bool :=
  fs.policy.isSome && (fs.wrapper.isSome && fs.wrapperExec) &&
    fs.wrapper == some wrapperContent && fs.policy == some policyContent

/-- Effect on the two artifact files of the root rewrite script of
`App._ensure_polkit_policy`, src/gnushark.py lines 1334-1348: both files are
written with the intended content and the wrapper is made executable. -/
def run_policy_install_script (wrapperContent policyContent : String) : PolicyFs :=
  { wrapper := some wrapperContent, wrapperExec := true, policy := some policyContent }

/-- Control flow of `App._ensure_polkit_policy`, src/gnushark.py lines
1305-1368, over the filesystem model.  `installing` is the re-entrancy flag
checked on line 1349.  The returned Bool records whether the root rewrite
pipeline was launched (the only filesystem writes the function can cause);
the script effect is applied to the state when it is. -/
def ensure_polkit_policy (installing : Bool) (fs : PolicyFs)
    (wrapperContent policyContent : String) : PolicyFs × Bool :=
  if installing then (fs, false)
  else if policy_check_ok fs wrapperContent policyContent then (fs, false)
  else (run_policy_install_script wrapperContent policyContent, true)

/-- Polling loop of `App._wait_sentinel_then_notify`, src/gnushark.py lines
1223-1232: one probe of the sentinel per second until the deadline.  `fuel`
is the number of one-second polls left before the 4-hour deadline and `t` the
current tick; `existsAt t` models `os.path.exists(sentinel_path)` at tick
`t`.  Returns true iff the sentinel was observed before the deadline. -/
def watch_loop (existsAt : Nat → Bool) : Nat → Nat → Bool
  | 0, _ => false
  | fuel + 1, t => if existsAt t then true else watch_loop existsAt fuel (t + 1)

/-- Poll budget of `App._wait_sentinel_then_notify`, src/gnushark.py line
1223: a 4-hour deadline with one-second sleeps. -/
def watch_poll_bound : Nat := 4 * 60 * 60

/-- Observable outcome of one run of `App._wait_sentinel_then_notify`. -/
structure WatchOutcome where
  sawSentinel : Bool
  removedSentinel : Bool
  notifiedFinished : Bool
deriving DecidableEq, Repr

/-- Whole of `App._wait_sentinel_then_notify`, src/gnushark.py lines
1221-1240: the loop breaks (removing the sentinel) when the file appears, and
the `finally` block on lines 1233-1240 posts the "Processo finalizado." info
dialog on every exit path, timeout included. -/
def wait_sentinel_then_notify (existsAt : Nat → Bool) : WatchOutcome :=
  { sawSentinel := watch_loop existsAt watch_poll_bound 0,
    removedSentinel := watch_loop existsAt watch_poll_bound 0,
    notifiedFinished := true }

/-- Virtual-provider resolution `App._resolve_virtual_pkgs`, src/gnushark.py
lines 1243-1256.  The oracle `inOfficial` models `_pkg_in_official_repos_cached`
(a memoized `pacman -Si` existence check).  Only the name "vkd3d-proton" is
special-cased: it stays itself when available officially and becomes
"vkd3d-proton-bin" in both remaining branches. -/
def resolve_virtual_pkgs (inOfficial : String → Bool) : List String → List String
  | [] => []
  | p :: rest =>
    (if p = "vkd3d-proton" then
      if inOfficial "vkd3d-proton" then "vkd3d-proton"
      else if inOfficial "vkd3d-proton-bin" then "vkd3d-proton-bin"
      else "vkd3d-proton-bin"
    else p) :: resolve_virtual_pkgs inOfficial rest

/-- Missing-package query `App._missing_packages`, src/gnushark.py lines
1259-1277.  Line 1261 drops falsy (empty) names; when nothing remains the
function returns `[]` on line 1263 without running any pacman command.  The
oracle `installed` models the pacman local database; both the batch
`pacman -T` path and the per-package `pacman -Q` fallback return exactly the
requested names that are not installed, in input order.  The second component
records whether any package-database query was executed. -/
def missing_packages (installed : String → Bool) (pkgs : List String) : List String × Bool :=
  if (pkgs.filter (fun p => p != "")).isEmpty then ([], false)
  else ((pkgs.filter (fun p => p != "")).filter (fun p => !installed p), true)

/-- Installed-any check `App._any_installed`, src/gnushark.py lines 1279-1285.
Line 1281 drops falsy names and line 1283 returns False without any query
when nothing remains; otherwise the result is
`len(set(missing)) < len(set(pkgs))` over the filtered list.  The second
component records whether any package-database query was executed. -/
def any_installed (installed : String → Bool) (pkgs : List String) : Bool × Bool :=
  if (pkgs.filter (fun p => p != "")).isEmpty then (false, false)
  else
    ((missing_packages installed (pkgs.filter (fun p => p != ""))).1.dedup.length
        < (pkgs.filter (fun p => p != "")).dedup.length,
      true)

/-- Helper: the split loop computes the two filters of the input list. -/
theorem split_official_aur_eq_filter (f : String → Bool) (l : List String) :
    split_official_aur f l = (l.filter f, l.filter (fun p => !f p)) := by
  induction l with
  | nil => rfl
  | cons p rest ih =>
    by_cases hp : f p = true
    · simp [split_official_aur, ih, List.filter_cons, hp]
    · simp only [Bool.not_eq_true] at hp
      simp [split_official_aur, ih, List.filter_cons, hp]

/-- Helper: for `ram ≥ 256` the chosen size is a multiple of 256 lying
between 256 and `min ram 16384`. -/
theorem zram_size_mib_bounds (ram : Nat) (h : 256 ≤ ram) :
    256 ≤ zram_size_mib ram ∧ zram_size_mib ram ≤ ram ∧
    zram_size_mib ram ≤ 16384 ∧ zram_size_mib ram % 256 = 0 := by
  unfold zram_size_mib zram_size_mib_pre
  split_ifs <;> omega

/-- Helper: the label parser inverts the label renderer on every multiple of
256 up to 16384, the exact range the size computation can produce. -/
theorem parse_label_roundtrip_256 :
    ∀ k, k < 64 → parse_size_label (zram_size_label ((k + 1) * 256)) = some ((k + 1) * 256) := by
  decide

/-- Helper: when the sentinel never exists the polling loop reports false for
any fuel and start tick. -/
theorem watch_loop_never (fuel t : Nat) : watch_loop (fun _ => false) fuel t = false := by
  induction fuel generalizing t with
  | zero => rfl
  | succ n ih => simp [watch_loop, ih]

/-- Helper: right after the root rewrite script has run, the byte-for-byte
check succeeds. -/
theorem policy_check_after_install (wc pc : String) :
    policy_check_ok (run_policy_install_script wc pc) wc pc = true := by
  simp [policy_check_ok, run_policy_install_script]

/-- Helper: every name reported missing was in the queried list. -/
theorem mem_of_mem_missing (installed : String → Bool) (l : List String) (x : String)
    (hx : x ∈ (missing_packages installed l).1) : x ∈ l := by
  unfold missing_packages at hx
  by_cases h : (l.filter (fun p => p != "")).isEmpty = true
  · simp [h] at hx
  · simp only [h, if_neg, Bool.false_eq_true, if_false] at hx
    exact List.mem_of_mem_filter (List.mem_of_mem_filter hx)

/-- Helper: a name absent from the input is absent from both halves of the
official/AUR split. -/
theorem not_mem_split_of_not_mem (f : String → Bool) (l : List String) (x : String)
    (hx : x ∉ l) :
    x ∉ (split_official_aur f l).1 ∧ x ∉ (split_official_aur f l).2 := by
  rw [split_official_aur_eq_filter]
  exact ⟨fun hm => hx (List.mem_of_mem_filter hm), fun hm => hx (List.mem_of_mem_filter hm)⟩

/-- C1: for positive `ramMiB` and `cores`, the zram parameters computed by
`App._choose_zram_params` are exactly the size, compression and swappiness
tables stated by the claim (size rounded down to a multiple of 256 MiB with
floor 256). -/
theorem zram_params_match_spec (ram cores : Nat) (h1 : 0 < ram) (h2 : 0 < cores) :
    zram_size_mib ram = zram_spec_size ram ∧
    zram_comp cores = zram_spec_comp cores ∧
    zram_swappiness ram = zram_spec_swappiness ram := by
  refine ⟨?_, rfl, rfl⟩
  unfold zram_size_mib zram_size_mib_pre zram_spec_size
  split_ifs <;> omega

/-- Witness for C1 at the spec example `ramMiB = 8192, cores = 4`, which also
evaluates to the documented `("6G", "lz4", 100)`. -/
theorem zram_params_match_spec_witness :
    0 < 8192 ∧ 0 < 4 ∧
      (zram_size_mib 8192 = zram_spec_size 8192 ∧
       zram_comp 4 = zram_spec_comp 4 ∧
       zram_swappiness 8192 = zram_spec_swappiness 8192) ∧
      choose_zram_params 8192 4 = ("6G", "lz4", 100) :=
  ⟨by decide, by decide, zram_params_match_spec 8192 4 (by decide) (by decide), by decide⟩

/-- C2 counterexample: at `ramMiB = 100, cores = 1` the returned size label is
"256M", which parses back to 256 MiB; 256 MiB exceeds `ramMiB` MiB, so the
parsed byte count does not lie within `[256 MiB, ramMiB]` and the claim as
stated fails. -/
theorem zram_label_bound_fails_small_ram :
    (choose_zram_params 100 1).1 = "256M" ∧
    parse_size_label (choose_zram_params 100 1).1 = some 256 ∧ ¬(256 ≤ 100) :=
  ⟨by decide, by decide, by decide⟩

/-- C2 amended: for `ramMiB ≥ 256` and any core count the size label returned
by `App._choose_zram_params` parses back to a MiB count within
`[256, ramMiB]` that is a multiple of 256 (equivalently, a byte count within
`[256 MiB, ramMiB MiB]` aligned to a 256 MiB boundary); determinism is
definitional, the result being a function of the two inputs alone. -/
theorem zram_label_parse_back (ram cores : Nat) (h : 256 ≤ ram) :
    ∃ m, parse_size_label (choose_zram_params ram cores).1 = some m ∧
      256 ≤ m ∧ m ≤ ram ∧ m % 256 = 0 := by
  obtain ⟨h1, h2, h3, h4⟩ := zram_size_mib_bounds ram h
  refine ⟨zram_size_mib ram, ?_, h1, h2, h4⟩
  have hk : zram_size_mib ram = (zram_size_mib ram / 256 - 1 + 1) * 256 := by omega
  have hklt : zram_size_mib ram / 256 - 1 < 64 := by omega
  have hround := parse_label_roundtrip_256 (zram_size_mib ram / 256 - 1) hklt
  rw [← hk] at hround
  exact hround

/-- Witness for C2 (amended) at `ramMiB = 8192, cores = 4`. -/
theorem zram_label_parse_back_witness :
    256 ≤ 8192 ∧
      ∃ m, parse_size_label (choose_zram_params 8192 4).1 = some m ∧
        256 ≤ m ∧ m ≤ 8192 ∧ m % 256 = 0 :=
  ⟨by decide, zram_label_parse_back 8192 4 (by decide)⟩

/-- C3: whenever the official part of the split of the missing packages is
non-empty, the source selection of `App.handle_action` takes the
official-repository branch, for every flatpak identifier, flatpak
availability and third-party remainder; and conversely any run that did not
take the official branch had an empty official part. -/
theorem official_branch_priority (f : String → Bool) (toInstall : List String)
    (fid : Option String) (avail : Bool)
    (h : (split_official_aur f toInstall).1 ≠ []) :
    select_install_source f toInstall fid avail = SourceBranch.officialRepo ∧
    ∀ g l fid2 av2, select_install_source g l fid2 av2 ≠ SourceBranch.officialRepo →
      (split_official_aur g l).1 = [] := by
  constructor
  · have hne : (split_official_aur f toInstall).1.isEmpty = false := by
      cases hl : (split_official_aur f toInstall).1 with
      | nil => exact absurd hl h
      | cons a t => rfl
    simp [select_install_source, hne]
  · intro g l fid2 av2 hsel
    cases hl : (split_official_aur g l).1 with
    | nil => rfl
    | cons a t =>
      exact absurd (by simp [select_install_source, hl]) hsel

/-- Witness for C3: one official package, one AUR package, a configured
flatpak identifier and an available flatpak runtime still select the
official branch. -/
theorem official_branch_priority_witness :
    (split_official_aur (fun s => s == "mesa") ["mesa", "extra-tool"]).1 ≠ [] ∧
    select_install_source (fun s => s == "mesa") ["mesa", "extra-tool"]
        (some "org.example.App") true = SourceBranch.officialRepo :=
  ⟨by decide, (official_branch_priority (fun s => s == "mesa") ["mesa", "extra-tool"]
      (some "org.example.App") true (by decide)).1⟩

/-- C4: the official/AUR split partitions its input: the two output lists
together are a permutation of the input, each is an order-preserving sublist
of the input, and no name belongs to both outputs (proved for every input,
duplicates included, which subsumes the duplicate-free case of the claim). -/
theorem split_official_aur_partition (f : String → Bool) (l : List String) :
    ((split_official_aur f l).1 ++ (split_official_aur f l).2).Perm l ∧
    (split_official_aur f l).1.Sublist l ∧
    (split_official_aur f l).2.Sublist l ∧
    ∀ x, x ∈ (split_official_aur f l).1 → x ∉ (split_official_aur f l).2 := by
  rw [split_official_aur_eq_filter]
  refine ⟨List.filter_append_perm f l, List.filter_sublist l, List.filter_sublist l, ?_⟩
  intro x hx hx2
  rw [List.mem_filter] at hx hx2
  rw [hx.2] at hx2
  simp at hx2

/-- C5: the completion-sentinel path is a function of the process id and the
epoch-millisecond timestamp alone, with no further sub-identifier, so two
pipeline invocations in the same process within the same millisecond receive
byte-identical paths; evaluated at pid 4242 and millisecond 99999. -/
theorem sentinel_path_collides_same_ms :
    sentinel_path 4242 99999 = sentinel_path 4242 99999 ∧
    sentinel_path 4242 99999 = "/tmp/gnusk_done_4242_99999" :=
  ⟨rfl, by decide⟩

/-- C6 counterexample: with PCI/sysfs detection reporting no vendor at all
but the nvidia kernel module loaded, the union on line 1739 contains
"nvidia" and the nvidia-driver request is not blocked, refuting the claim
that an nvidia-free `gpuVendors()` result always blocks. -/
theorem nvidia_gate_ignores_module_union :
    ¬("nvidia" ∈ ([] : List String)) ∧
    block_incompatible "nvidia-driver" [] ["nvidia"] = false ∧
    handle_action_gate "nvidia-driver" [] ["nvidia"] = ActionGate.proceeds :=
  ⟨by decide, by decide, by decide⟩

/-- C6 amended: when neither the PCI/sysfs probe nor loaded-kernel-module
detection reports "nvidia", the nvidia-driver request is blocked by
`App._block_incompatible`, which `App.handle_action` runs before any plan or
script is built. -/
theorem nvidia_gate_blocks_without_nvidia (gpu mods : List String)
    (h1 : "nvidia" ∉ gpu) (h2 : "nvidia" ∉ mods) :
    block_incompatible "nvidia-driver" gpu mods = true ∧
    handle_action_gate "nvidia-driver" gpu mods = ActionGate.blocked := by
  have hu : "nvidia" ∉ gpu ++ mods := by
    rw [List.mem_append]
    rintro (hg | hm)
    · exact h1 hg
    · exact h2 hm
  have hb : block_incompatible "nvidia-driver" gpu mods = true := by
    unfold block_incompatible
    rw [if_pos ⟨rfl, hu⟩]
  refine ⟨hb, ?_⟩
  unfold handle_action_gate
  rw [hb]
  rfl

/-- Witness for C6 (amended): an AMD-only machine with no nvidia module. -/
theorem nvidia_gate_blocks_without_nvidia_witness :
    "nvidia" ∉ (["amd"] : List String) ∧ "nvidia" ∉ (["amdgpu-vendor"] : List String) ∧
    (block_incompatible "nvidia-driver" ["amd"] ["amdgpu-vendor"] = true ∧
     handle_action_gate "nvidia-driver" ["amd"] ["amdgpu-vendor"] = ActionGate.blocked) :=
  ⟨by decide, by decide,
    nvidia_gate_blocks_without_nvidia ["amd"] ["amdgpu-vendor"] (by decide) (by decide)⟩

/-- C7: running the policy install twice in a row (re-entrancy flag clear,
intended contents unchanged) performs no writes the second time: whatever the
initial on-disk state, the second call leaves the state unchanged and does
not launch the root rewrite pipeline, because the byte-for-byte check
succeeds on the state the first call left behind. -/
theorem ensure_polkit_policy_idempotent (fs : PolicyFs) (wc pc : String) :
    ensure_polkit_policy false (ensure_polkit_policy false fs wc pc).1 wc pc
      = ((ensure_polkit_policy false fs wc pc).1, false) := by
  by_cases h : policy_check_ok fs wc pc = true
  · simp [ensure_polkit_policy, h]
  · simp [ensure_polkit_policy, h, policy_check_after_install]

/-- C8: when the sentinel never appears within the 4-hour polling bound the
watcher times out without having seen or removed the sentinel, yet the
`finally` block still posts the "Processo finalizado." completion dialog —
the watcher is not silent, contradicting the claim and the docstring of
`App._wait_sentinel_then_notify`. -/
theorem watch_timeout_still_notifies :
    wait_sentinel_then_notify (fun _ => false)
      = { sawSentinel := false, removedSentinel := false, notifiedFinished := true } := by
  simp [wait_sentinel_then_notify, watch_loop_never]

/-- C9: when the primary form "vkd3d-proton" is not available in the official
repository, virtual-package resolution never leaves the virtual name in the
resolved list, substitutes the concrete fallback "vkd3d-proton-bin" wherever
the virtual name was requested, and consequently the virtual name appears in
neither half of the official/AUR split of the missing packages computed from
the resolved list — the install plan. -/
theorem virtual_pkg_resolves_to_fallback (inOfficial installed : String → Bool)
    (pkgs : List String) (h : inOfficial "vkd3d-proton" = false) :
    "vkd3d-proton" ∉ resolve_virtual_pkgs inOfficial pkgs ∧
    ("vkd3d-proton" ∈ pkgs → "vkd3d-proton-bin" ∈ resolve_virtual_pkgs inOfficial pkgs) ∧
    "vkd3d-proton" ∉ (split_official_aur inOfficial
        (missing_packages installed (resolve_virtual_pkgs inOfficial pkgs)).1).1 ∧
    "vkd3d-proton" ∉ (split_official_aur inOfficial
        (missing_packages installed (resolve_virtual_pkgs inOfficial pkgs)).1).2 := by
  have hmain : "vkd3d-proton" ∉ resolve_virtual_pkgs inOfficial pkgs ∧
      ("vkd3d-proton" ∈ pkgs → "vkd3d-proton-bin" ∈ resolve_virtual_pkgs inOfficial pkgs) := by
    induction pkgs with
    | nil => simp [resolve_virtual_pkgs]
    | cons p rest ih =>
      unfold resolve_virtual_pkgs
      by_cases hp : p = "vkd3d-proton"
      · simp only [hp, if_pos rfl, h, Bool.false_eq_true, if_false, ite_self]
        constructor
        · rw [List.mem_cons]
          rintro (habs | habs)
          · exact absurd habs (by decide)
          · exact ih.1 habs
        · intro _
          exact List.mem_cons_self _ _
      · simp only [if_neg hp]
        constructor
        · rw [List.mem_cons]
          rintro (habs | habs)
          · exact hp habs.symm
          · exact ih.1 habs
        · intro hmem
          rw [List.mem_cons] at hmem
          rcases hmem with hmem | hmem
          · exact absurd hmem.symm hp
          · exact List.mem_cons_of_mem _ (ih.2 hmem)
  have hnotmiss : "vkd3d-proton" ∉
      (missing_packages installed (resolve_virtual_pkgs inOfficial pkgs)).1 :=
    fun hm => hmain.1 (mem_of_mem_missing installed _ _ hm)
  obtain ⟨hs1, hs2⟩ := not_mem_split_of_not_mem inOfficial
    (missing_packages installed (resolve_virtual_pkgs inOfficial pkgs)).1 _ hnotmiss
  exact ⟨hmain.1, hmain.2, hs1, hs2⟩

/-- Witness for C9: the primary form is not in the official repository, the
fallback is; a request for the virtual name resolves to the fallback and the
virtual name is absent from the resulting plan. -/
theorem virtual_pkg_resolves_to_fallback_witness :
    (fun s => s == "vkd3d-proton-bin") "vkd3d-proton" = false ∧
    ("vkd3d-proton" ∉ resolve_virtual_pkgs (fun s => s == "vkd3d-proton-bin") ["vkd3d-proton"] ∧
     ("vkd3d-proton" ∈ ["vkd3d-proton"] →
       "vkd3d-proton-bin" ∈ resolve_virtual_pkgs (fun s => s == "vkd3d-proton-bin") ["vkd3d-proton"]) ∧
     "vkd3d-proton" ∉ (split_official_aur (fun s => s == "vkd3d-proton-bin")
        (missing_packages (fun _ => false)
          (resolve_virtual_pkgs (fun s => s == "vkd3d-proton-bin") ["vkd3d-proton"])).1).1 ∧
     "vkd3d-proton" ∉ (split_official_aur (fun s => s == "vkd3d-proton-bin")
        (missing_packages (fun _ => false)
          (resolve_virtual_pkgs (fun s => s == "vkd3d-proton-bin") ["vkd3d-proton"])).1).2) :=
  ⟨by decide,
    virtual_pkg_resolves_to_fallback (fun s => s == "vkd3d-proton-bin") (fun _ => false)
      ["vkd3d-proton"] (by decide)⟩

/-- C10: on an input list that is empty or contains only empty-string names,
`App._missing_packages` returns the empty list and `App._any_installed`
returns False, and neither executes a package-database query (the second
component of each result). -/
theorem empty_query_short_circuit (installed : String → Bool) (pkgs : List String)
    (h : ∀ p ∈ pkgs, p = "") :
    missing_packages installed pkgs = ([], false) ∧
    any_installed installed pkgs = (false, false) := by
  have hf : pkgs.filter (fun p => p != "") = [] := by
    rw [List.filter_eq_nil_iff]
    intro a ha
    simp [h a ha]
  constructor
  · simp [missing_packages, hf]
  · simp [any_installed, hf]

/-- Witness for C10 on the input `[""]`. -/
theorem empty_query_short_circuit_witness :
    (∀ p ∈ ([""] : List String), p = "") ∧
    missing_packages (fun _ => false) [""] = ([], false) ∧
    any_installed (fun _ => false) [""] = (false, false) := by
  have h := empty_query_short_circuit (fun _ => false) [""] (by decide)
  exact ⟨by decide, h.1, h.2⟩

end GnuShark
